import Mathlib

/-
Shallow embedding of the mini-substrate runtime (src/src/l_mini_substrate.rs).

The Rust code stores typed values in a byte-keyed map (io_storage) through the
StorageValue / StorageMap traits.  The two storage items of the currency module,
TotalIssuance (a single cell under key b"TotalIssuance") and BalancesMap (one
entry per account under key b"BalancesMap" ++ encode(account)), live under
disjoint raw keys, and the SCALE codec round-trips the stored values, so the
byte store is embedded here as its typed contents: an optional issuance value
plus an association list from account ids to account balances.  The raw key
derivation itself is embedded separately, byte for byte, for the key-format
claims.

Balances are u64 in the MyRuntime binding; they are embedded as Nat together
with checked arithmetic that fails above 2^64 - 1, mirroring
u64::checked_add / checked_sub.  Account ids are u32, embedded as Nat.
-/

/-- Largest value of the u64 balance type bound by MyRuntime. -/
def UMAX : Nat := 2 ^ 64 - 1

/-- u64::checked_sub: none on underflow. -/
def checked_sub (a b : Nat) : Option Nat :=
  if b ≤ a then some (a - b) else none

/-- u64::checked_add: none when the mathematical sum exceeds UMAX. -/
def checked_add (a b : Nat) : Option Nat :=
  if a + b ≤ UMAX then some (a + b) else none

/-- runtime::MinimumBalance: Get<u64> returning 5. -/
def MinimumBalance : Nat := 5

/-- runtime::Minter: Get<AccountId> returning AccountId(42). -/
def Minter : Nat := 42

/-- currency_module Config::MODULE_ID as bound by MyRuntime. -/
def MODULE_ID : String := "MOD_CURRENCY"

/-- shared::DispatchError. -/
inductive DispatchError where
  | Module (module_id : String) (reason : String)
  | Other (reason : String)
deriving DecidableEq, Repr

/-- currency_module::Error (the marker variant is unrepresentable here). -/
inductive Error where
  | DoesNotExist
  | NotAllowed
  | InsufficientFunds
  | Overflow
deriving DecidableEq, Repr

def reasonDoesNotExist : String := "DoesNotExist"

def reasonNotAllowed : String := "NotAllowed"

def reasonInsufficientFunds : String := "InsufficientFunds"

def reasonOverflow : String := "Overflow"

/-- The From<Error<T>> for DispatchError conversion: tag with MODULE_ID and the
variant name as the reason string. -/
def Error.toDispatchError : Error → DispatchError
  | Error.DoesNotExist => DispatchError.Module MODULE_ID reasonDoesNotExist
  | Error.NotAllowed => DispatchError.Module MODULE_ID reasonNotAllowed
  | Error.InsufficientFunds => DispatchError.Module MODULE_ID reasonInsufficientFunds
  | Error.Overflow => DispatchError.Module MODULE_ID reasonOverflow

/-- currency_module::AccountBalance: free and reserved parts of a balance. -/
structure AccountBalance where
  free : Nat
  reserved : Nat
deriving DecidableEq, Repr

/-- AccountBalance::reserve.  Returns the (possibly mutated) record together
with the error, if any; the Rust method mutates self only on success. -/
def AccountBalance.reserve (self : AccountBalance) (amount : Nat) :
    AccountBalance × Option DispatchError :=
  match checked_sub self.free amount with
  | some leftover =>
      if MinimumBalance ≤ leftover ∨ leftover = 0 then
        match checked_add self.reserved amount with
        | some total => ({ free := leftover, reserved := total }, none)
        | none => (self, some (Error.toDispatchError Error.Overflow))
      else (self, some (Error.toDispatchError Error.InsufficientFunds))
  | none => (self, some (Error.toDispatchError Error.InsufficientFunds))

/-- AccountBalance::unreserve.  Mutates self only on success. -/
def AccountBalance.unreserve (self : AccountBalance) (amount : Nat) :
    AccountBalance × Option DispatchError :=
  match checked_sub self.reserved amount with
  | some leftover =>
      match checked_add self.free amount with
      | some total => ({ free := total, reserved := leftover }, none)
      | none => (self, some (Error.toDispatchError Error.Overflow))
  | none => (self, some (Error.toDispatchError Error.InsufficientFunds))

/-- AccountBalance::can_transfer: none means Ok. -/
def AccountBalance.can_transfer (self : AccountBalance) (amount : Nat) :
    Option DispatchError :=
  match checked_sub self.free amount with
  | some leftover =>
      if MinimumBalance ≤ leftover ∨ leftover = 0 then none
      else some (Error.toDispatchError Error.InsufficientFunds)
  | none => some (Error.toDispatchError Error.InsufficientFunds)

/-- AccountBalance::transfer (the sender-side debit).  Mutates self only on
success. -/
def AccountBalance.transfer (self : AccountBalance) (amount : Nat) :
    AccountBalance × Option DispatchError :=
  match checked_sub self.free amount with
  | some leftover =>
      if MinimumBalance ≤ leftover ∨ leftover = 0 then
        ({ self with free := leftover }, none)
      else (self, some (Error.toDispatchError Error.InsufficientFunds))
  | none => (self, some (Error.toDispatchError Error.InsufficientFunds))

/-- AccountBalance::can_receive: none means Ok. -/
def AccountBalance.can_receive (self : AccountBalance) (amount : Nat) :
    Option DispatchError :=
  match checked_add self.free amount with
  | some n =>
      if MinimumBalance ≤ n then none
      else some (Error.toDispatchError Error.InsufficientFunds)
  | none => some (Error.toDispatchError Error.Overflow)

/-- AccountBalance::receive.  The Rust method writes the new free balance
before checking the floor, so on the InsufficientFunds path the record is
already mutated; the pair keeps that mutated record beside the error. -/
def AccountBalance.receive (self : AccountBalance) (amount : Nat) :
    AccountBalance × Option DispatchError :=
  match checked_add self.free amount with
  | some n =>
      if n < MinimumBalance then
        ({ self with free := n }, some (Error.toDispatchError Error.InsufficientFunds))
      else ({ self with free := n }, none)
  | none => (self, some (Error.toDispatchError Error.Overflow))

/-- Lookup in the balances association list (first matching key, mirroring the
unique-key BTreeMap underneath BalancesMap). -/
def mapGet : List (Nat × AccountBalance) → Nat → Option AccountBalance
  | [], _ => none
  | (k', v) :: rest, k => if k' = k then some v else mapGet rest k

/-- Insert-or-replace in the balances association list, mirroring
BalancesMap::mutate closing over Some (which calls set, a BTreeMap insert). -/
def mapSet : List (Nat × AccountBalance) → Nat → AccountBalance → List (Nat × AccountBalance)
  | [], k, v => [(k, v)]
  | (k', v') :: rest, k, v =>
      if k' = k then (k, v) :: rest else (k', v') :: mapSet rest k v

/-- Sum of free + reserved over all entries of a balances list. -/
def sumBal : List (Nat × AccountBalance) → Nat
  | [] => 0
  | p :: rest => p.2.free + p.2.reserved + sumBal rest

/-- The typed contents of io_storage relevant to the runtime: the
TotalIssuance cell and the BalancesMap table. -/
structure Storage where
  totalIssuance : Option Nat
  balances : List (Nat × AccountBalance)
deriving DecidableEq, Repr

/-- The empty io_storage. -/
def emptyStorage : Storage := { totalIssuance := none, balances := [] }

/-- SCALE encoding of AccountId (a u32): 4 bytes little endian. -/
def encodeAccountId (n : Nat) : List Nat :=
  [n % 256, n / 256 % 256, n / 65536 % 256, n / 16777216 % 256]

/-- The bytes of the name of the BalancesMap storage struct. -/
def nameBytesBalancesMap : List Nat := "BalancesMap".toList.map Char.toNat

/-- BalancesMap::raw_storage_key as implemented:
concat of b"BalancesMap" and encode(key), with no separator. -/
def BalancesMap.raw_storage_key (key : Nat) : List Nat :=
  nameBytesBalancesMap ++ encodeAccountId key

/-- Key derivation as the specification words it: the name bytes of the table,
then a single underscore byte (0x5f = 95), then the codec encoding of the key.
This is the spec-side definition for the refinement comparison of the key
format; the implementation-side definition is BalancesMap.raw_storage_key. -/
def specBalancesMap_raw_storage_key (key : Nat) : List Nat :=
  nameBytesBalancesMap ++ [95] ++ encodeAccountId key

/-- The dest-side computation inside Module::transfer: the Rust code starts
from a fresh record { free: amount, reserved: 0 }, overwrites it with the
stored record (after can_receive / receive) when dest exists, and on a fresh
dest rejects amounts under the minimum balance. -/
def transferDestResult (balances : List (Nat × AccountBalance)) (dest amount : Nat) :
    Except DispatchError AccountBalance :=
  match mapGet balances dest with
  | some d0 =>
      match AccountBalance.can_receive d0 amount with
      | some e => Except.error e
      | none => Except.ok (AccountBalance.receive d0 amount).1
  | none =>
      if amount < MinimumBalance then
        Except.error (Error.toDispatchError Error.InsufficientFunds)
      else Except.ok { free := amount, reserved := 0 }

/-- currency_module::Module::transfer.  The result pairs the post-state with
the dispatch error (none is Ok); every error return happens before any
storage write, so it carries the input state. -/
def Module.transfer (st : Storage) (sender dest amount : Nat) :
    Storage × Option DispatchError :=
  match mapGet st.balances sender with
  | none => (st, some (Error.toDispatchError Error.DoesNotExist))
  | some sab0 =>
      match AccountBalance.can_transfer sab0 amount with
      | some e => (st, some e)
      | none =>
          let sab := (AccountBalance.transfer sab0 amount).1
          match transferDestResult st.balances dest amount with
          | Except.error e => (st, some e)
          | Except.ok dab =>
              ({ st with balances := mapSet (mapSet st.balances sender sab) dest dab }, none)

/-- currency_module::Module::transfer_all.  Note that the dest side feeds the
DEST record's own free balance into can_receive and receive. -/
def Module.transfer_all (st : Storage) (sender dest : Nat) :
    Storage × Option DispatchError :=
  match mapGet st.balances sender with
  | none => (st, some (Error.toDispatchError Error.DoesNotExist))
  | some sab0 =>
      match AccountBalance.can_transfer sab0 sab0.free with
      | some e => (st, some e)
      | none =>
          let sab := (AccountBalance.transfer sab0 sab0.free).1
          match mapGet st.balances dest with
          | none => (st, some (Error.toDispatchError Error.DoesNotExist))
          | some dab0 =>
              match AccountBalance.can_receive dab0 dab0.free with
              | some e => (st, some e)
              | none =>
                  let dab := (AccountBalance.receive dab0 dab0.free).1
                  ({ st with balances := mapSet (mapSet st.balances sender sab) dest dab },
                    none)

/-- currency_module::Module::mint.  When dest does not exist, TotalIssuance is
SET to amount (not added to) and the account is created; when it exists the
call is a no-op returning Ok. -/
def Module.mint (st : Storage) (sender who amount : Nat) :
    Storage × Option DispatchError :=
  if sender ≠ Minter then (st, some (Error.toDispatchError Error.NotAllowed))
  else if (mapGet st.balances who).isSome then (st, none)
  else
    ({ totalIssuance := some amount,
       balances := mapSet st.balances who { free := amount, reserved := 0 } }, none)

/-- currency_module::Module::reserve.  The inner AccountBalance::reserve is
called with unwrap_or_default, so its error is dropped: the (unchanged on
failure) record is written back and Ok is returned. -/
def Module.reserve (st : Storage) (from_ amount : Nat) :
    Storage × Option DispatchError :=
  match mapGet st.balances from_ with
  | none => (st, some (Error.toDispatchError Error.DoesNotExist))
  | some ab0 =>
      let ab := (AccountBalance.reserve ab0 amount).1
      ({ st with balances := mapSet st.balances from_ ab }, none)

/-- currency_module::Module::unreserve.  Same unwrap_or_default pattern as
Module.reserve: the inner error is dropped and Ok is returned. -/
def Module.unreserve (st : Storage) (from_ amount : Nat) :
    Storage × Option DispatchError :=
  match mapGet st.balances from_ with
  | none => (st, some (Error.toDispatchError Error.DoesNotExist))
  | some ab0 =>
      let ab := (AccountBalance.unreserve ab0 amount).1
      ({ st with balances := mapSet st.balances from_ ab }, none)

/-- The CryptoCurrency::free_balance impl for Module: it unwraps the
BalancesMap entry before wrapping in Some, so a missing account makes the
unwrap panic.  The outer none of the result models that panic; a normal
return r is some r. -/
def Module.free_balance (st : Storage) (of : Nat) : Option (Option Nat) :=
  match mapGet st.balances of with
  | none => none
  | some ab => some (some ab.free)

/-- The CryptoCurrency::reserved_balance impl for Module, with the same
unwrap-then-Some shape (outer none models the panic on a missing account). -/
def Module.reserved_balance (st : Storage) (of : Nat) : Option (Option Nat) :=
  match mapGet st.balances of with
  | none => none
  | some ab => some (some ab.reserved)

/-- staking_module::Module::bond: probes BalancesMap existence directly, then
delegates to currency Module.reserve. -/
def Module.bond (st : Storage) (sender amount : Nat) :
    Storage × Option DispatchError :=
  match mapGet st.balances sender with
  | none => (st, some (Error.toDispatchError Error.DoesNotExist))
  | some _ => Module.reserve st sender amount

/-- currency_module::Call. -/
inductive CurrencyCall where
  | Mint (dest amount : Nat)
  | Transfer (dest amount : Nat)
  | TransferAll (dest : Nat)
deriving DecidableEq, Repr

/-- staking_module::Call. -/
inductive StakingCall where
  | Bond (amount : Nat)
deriving DecidableEq, Repr

/-- runtime::RuntimeCall. -/
inductive RuntimeCall where
  | Currency (c : CurrencyCall)
  | Staking (c : StakingCall)
deriving DecidableEq, Repr

/-- Dispatchable impl for currency_module::Call. -/
def CurrencyCall.dispatch (c : CurrencyCall) (sender : Nat) (st : Storage) :
    Storage × Option DispatchError :=
  match c with
  | CurrencyCall.Mint dest amount => Module.mint st sender dest amount
  | CurrencyCall.Transfer dest amount => Module.transfer st sender dest amount
  | CurrencyCall.TransferAll dest => Module.transfer_all st sender dest

/-- Dispatchable impl for staking_module::Call. -/
def StakingCall.dispatch (c : StakingCall) (sender : Nat) (st : Storage) :
    Storage × Option DispatchError :=
  match c with
  | StakingCall.Bond amount => Module.bond st sender amount

/-- Dispatchable impl for runtime::RuntimeCall: forward to the member's own
dispatch, unchanged. -/
def RuntimeCall.dispatch (c : RuntimeCall) (sender : Nat) (st : Storage) :
    Storage × Option DispatchError :=
  match c with
  | RuntimeCall.Currency c => CurrencyCall.dispatch c sender st
  | RuntimeCall.Staking c => StakingCall.dispatch c sender st

/-- Dispatch one (sender, call) pair against a state. -/
def dispatchCall (st : Storage) (sc : Nat × RuntimeCall) : Storage × Option DispatchError :=
  RuntimeCall.dispatch sc.2 sc.1 st

/-- Run a list of (sender, call) pairs from the empty storage, keeping each
post-state (errors leave the state as the call left it). -/
def run (calls : List (Nat × RuntimeCall)) : Storage :=
  calls.foldl (fun st sc => (dispatchCall st sc).1) emptyStorage

/-- Replacing the entry that mapGet finds makes mapGet return the new value. -/
theorem mapGet_mapSet_self (l : List (Nat × AccountBalance)) (k : Nat) (v : AccountBalance) :
    mapGet (mapSet l k v) k = some v := by
  induction l with
  | nil => simp [mapSet, mapGet]
  | cons hd tl ih =>
      obtain ⟨k', v'⟩ := hd
      by_cases h : k' = k
      · subst h
        simp [mapSet, mapGet]
      · simp [mapSet, mapGet, h, ih]

/-- Replacing the entry that mapGet finds changes the balance sum by the
difference between the new and old record totals. -/
theorem sumBal_mapSet (l : List (Nat × AccountBalance)) (k : Nat) (v w : AccountBalance)
    (h : mapGet l k = some w) :
    sumBal (mapSet l k v) + (w.free + w.reserved) = sumBal l + (v.free + v.reserved) := by
  induction l with
  | nil => simp [mapGet] at h
  | cons hd tl ih =>
      obtain ⟨k', v'⟩ := hd
      by_cases hk : k' = k
      · subst hk
        simp [mapGet] at h
        subst h
        simp [mapSet, sumBal]
        omega
      · simp [mapGet, hk] at h
        have h2 := ih h
        simp [mapSet, sumBal, hk]
        omega

/-- C1: the claim says that starting from empty storage, after every
successfully dispatched call sequence with no second mint to an existing
destination, TotalIssuance equals the sum of free + reserved over all
accounts.  Refuted at a concrete sequence: Mint 100 to account 1 followed by
Mint 50 to the still-fresh account 2 (both dispatches return Ok, and the
second mint targets a destination that does not exist yet) leaves
TotalIssuance at 50 while the balances sum to 150, because mint overwrites
the issuance cell instead of adding to it. -/
theorem mint_sequence_breaks_issuance_invariant :
    (dispatchCall emptyStorage (42, RuntimeCall.Currency (CurrencyCall.Mint 1 100))).2 = none
    ∧ mapGet (run [(42, RuntimeCall.Currency (CurrencyCall.Mint 1 100))]).balances 2 = none
    ∧ (dispatchCall (run [(42, RuntimeCall.Currency (CurrencyCall.Mint 1 100))])
        (42, RuntimeCall.Currency (CurrencyCall.Mint 2 50))).2 = none
    ∧ (run [(42, RuntimeCall.Currency (CurrencyCall.Mint 1 100)),
            (42, RuntimeCall.Currency (CurrencyCall.Mint 2 50))]).totalIssuance = some 50
    ∧ sumBal (run [(42, RuntimeCall.Currency (CurrencyCall.Mint 1 100)),
            (42, RuntimeCall.Currency (CurrencyCall.Mint 2 50))]).balances = 150
    ∧ (50 : Nat) ≠ 150 := by
  decide

/-- C2: the claim says that every account record reachable from empty storage
by dispatched calls satisfies free = 0 or free at least MinimumBalance.
Refuted at a concrete input: dispatching Mint 3 to the fresh account 1 from
the minter succeeds and creates a record with free = 3, which is neither 0
nor at least 5, because mint never checks the minimum-balance floor. -/
theorem mint_below_minimum_creates_subfloor_account :
    (dispatchCall emptyStorage (42, RuntimeCall.Currency (CurrencyCall.Mint 1 3))).2 = none
    ∧ mapGet (dispatchCall emptyStorage
        (42, RuntimeCall.Currency (CurrencyCall.Mint 1 3))).1.balances 1
        = some { free := 3, reserved := 0 }
    ∧ ¬((3 : Nat) = 0 ∨ MinimumBalance ≤ 3) := by
  decide

/-- C3: the claim says Module.reserve fails with InsufficientFunds when the
leftover free balance check fails, and in particular that after an account
with free 50 reserves 50, any further positive reserve or bond fails with
InsufficientFunds.  Evaluated at that input: after Mint 50 to account 1 and
Bond 50 the record is free 0, reserved 50; the inner AccountBalance.reserve
of 1 more does report InsufficientFunds, but Module.reserve drops that error
through unwrap_or_default and returns Ok with storage unchanged, and a Bond
of 1 dispatches to Ok as well. -/
theorem reserve_swallows_insufficient_funds :
    mapGet (run [(42, RuntimeCall.Currency (CurrencyCall.Mint 1 50)),
                 (1, RuntimeCall.Staking (StakingCall.Bond 50))]).balances 1
        = some { free := 0, reserved := 50 }
    ∧ (AccountBalance.reserve { free := 0, reserved := 50 } 1).2
        = some (Error.toDispatchError Error.InsufficientFunds)
    ∧ Module.reserve (run [(42, RuntimeCall.Currency (CurrencyCall.Mint 1 50)),
                 (1, RuntimeCall.Staking (StakingCall.Bond 50))]) 1 1
        = (run [(42, RuntimeCall.Currency (CurrencyCall.Mint 1 50)),
                 (1, RuntimeCall.Staking (StakingCall.Bond 50))], none)
    ∧ dispatchCall (run [(42, RuntimeCall.Currency (CurrencyCall.Mint 1 50)),
                 (1, RuntimeCall.Staking (StakingCall.Bond 50))])
        (1, RuntimeCall.Staking (StakingCall.Bond 1))
        = (run [(42, RuntimeCall.Currency (CurrencyCall.Mint 1 50)),
                 (1, RuntimeCall.Staking (StakingCall.Bond 50))], none) := by
  decide

/-- C4: the claim says a successful TransferAll increases the destination free
balance by exactly the sender's entire pre-call free balance.  Evaluated at a
concrete input: with account 1 at free 100 and account 2 at free 20,
TransferAll from 1 to 2 returns Ok, zeroes the sender (whose record and
reserved part survive), but leaves the destination at free 40 = 20 + 20: the
code credits the destination with the DESTINATION's own free balance rather
than the sender's 100, so the claimed post-balance 120 is not reached. -/
theorem transfer_all_credits_dest_own_balance :
    mapGet (run [(42, RuntimeCall.Currency (CurrencyCall.Mint 1 100)),
                 (42, RuntimeCall.Currency (CurrencyCall.Mint 2 20))]).balances 1
        = some { free := 100, reserved := 0 }
    ∧ mapGet (run [(42, RuntimeCall.Currency (CurrencyCall.Mint 1 100)),
                 (42, RuntimeCall.Currency (CurrencyCall.Mint 2 20))]).balances 2
        = some { free := 20, reserved := 0 }
    ∧ (dispatchCall (run [(42, RuntimeCall.Currency (CurrencyCall.Mint 1 100)),
                 (42, RuntimeCall.Currency (CurrencyCall.Mint 2 20))])
        (1, RuntimeCall.Currency (CurrencyCall.TransferAll 2))).2 = none
    ∧ mapGet (dispatchCall (run [(42, RuntimeCall.Currency (CurrencyCall.Mint 1 100)),
                 (42, RuntimeCall.Currency (CurrencyCall.Mint 2 20))])
        (1, RuntimeCall.Currency (CurrencyCall.TransferAll 2))).1.balances 1
        = some { free := 0, reserved := 0 }
    ∧ mapGet (dispatchCall (run [(42, RuntimeCall.Currency (CurrencyCall.Mint 1 100)),
                 (42, RuntimeCall.Currency (CurrencyCall.Mint 2 20))])
        (1, RuntimeCall.Currency (CurrencyCall.TransferAll 2))).1.balances 2
        = some { free := 40, reserved := 0 }
    ∧ (40 : Nat) ≠ 20 + 100 := by
  decide

/-- C5: the claim says the raw storage key of BalancesMap for account k is the
name bytes, then one underscore byte, then the codec encoding of k.
Evaluated at account 42: the implemented key is the name bytes directly
followed by the 4-byte little-endian encoding of 42, with no underscore byte,
so it differs from the spec-worded key that inserts byte 95. -/
theorem balances_map_key_lacks_underscore :
    BalancesMap.raw_storage_key 42 = nameBytesBalancesMap ++ [42, 0, 0, 0]
    ∧ specBalancesMap_raw_storage_key 42 = nameBytesBalancesMap ++ [95, 42, 0, 0, 0]
    ∧ BalancesMap.raw_storage_key 42 ≠ specBalancesMap_raw_storage_key 42 := by
  decide

/-- C8: the claim says Module.unreserve fails with InsufficientFunds when
reserved minus amount underflows.  Evaluated at a concrete input: account 1
holds free 100, reserved 0 after a mint; unreserving 10 underflows the
reserved balance and the inner AccountBalance.unreserve reports
InsufficientFunds, but Module.unreserve drops that error through
unwrap_or_default and returns Ok with storage unchanged. -/
theorem unreserve_swallows_insufficient_funds :
    mapGet (run [(42, RuntimeCall.Currency (CurrencyCall.Mint 1 100))]).balances 1
        = some { free := 100, reserved := 0 }
    ∧ checked_sub 0 10 = none
    ∧ (AccountBalance.unreserve { free := 100, reserved := 0 } 10).2
        = some (Error.toDispatchError Error.InsufficientFunds)
    ∧ Module.unreserve (run [(42, RuntimeCall.Currency (CurrencyCall.Mint 1 100))]) 1 10
        = (run [(42, RuntimeCall.Currency (CurrencyCall.Mint 1 100))], none) := by
  decide

/-- C9: the claim says free_balance and reserved_balance return None for an
account with no BalancesMap record and Some of the stored values otherwise.
In the embedding the outer Option models the unwrap in the implementation:
outer none is the panic of unwrapping a missing record, some r is a normal
return of r.  Evaluated: on the missing account 1 in empty storage both reads
hit the panic (outer none) instead of returning the claimed normal None,
while on the existing account they do return Some of the stored values. -/
theorem free_balance_panics_on_missing_account :
    Module.free_balance emptyStorage 1 = none
    ∧ Module.reserved_balance emptyStorage 1 = none
    ∧ Module.free_balance (run [(42, RuntimeCall.Currency (CurrencyCall.Mint 1 100))]) 1
        = some (some 100)
    ∧ Module.reserved_balance (run [(42, RuntimeCall.Currency (CurrencyCall.Mint 1 100))]) 1
        = some (some 0) := by
  decide

/-- C7: Module.mint fails with NotAllowed when the sender is not the Minter;
when the destination has no record it creates it with free = amount and
reserved = 0 and SETS TotalIssuance to exactly amount, overwriting any prior
issuance value; when the destination already exists it returns Ok with all
storage unchanged. -/
theorem mint_spec (st : Storage) (sender dest amt : Nat) :
    (sender ≠ Minter →
      Module.mint st sender dest amt = (st, some (Error.toDispatchError Error.NotAllowed)))
    ∧ (sender = Minter → mapGet st.balances dest = none →
      Module.mint st sender dest amt =
        ({ totalIssuance := some amt,
           balances := mapSet st.balances dest { free := amt, reserved := 0 } }, none))
    ∧ (sender = Minter → ∀ ab, mapGet st.balances dest = some ab →
      Module.mint st sender dest amt = (st, none)) := by
  refine ⟨?_, ?_, ?_⟩
  · intro h
    simp [Module.mint, h]
  · intro h hget
    simp [Module.mint, h, hget]
  · intro h ab hget
    simp [Module.mint, h, hget]

/-- Witness for mint_spec at concrete inputs: sender 1 is rejected, minting 10
to the fresh account 2 creates it and sets issuance 10, and re-minting 7 to
the now-existing account 2 is a no-op returning Ok. -/
theorem mint_spec_witness :
    Module.mint emptyStorage 1 2 10 = (emptyStorage, some (Error.toDispatchError Error.NotAllowed))
    ∧ Module.mint emptyStorage 42 2 10 =
        ({ totalIssuance := some 10,
           balances := mapSet emptyStorage.balances 2 { free := 10, reserved := 0 } }, none)
    ∧ Module.mint (run [(42, RuntimeCall.Currency (CurrencyCall.Mint 2 10))]) 42 2 7
        = (run [(42, RuntimeCall.Currency (CurrencyCall.Mint 2 10))], none) :=
  ⟨(mint_spec emptyStorage 1 2 10).1 (by decide),
   (mint_spec emptyStorage 42 2 10).2.1 rfl (by decide),
   (mint_spec (run [(42, RuntimeCall.Currency (CurrencyCall.Mint 2 10))]) 42 2 7).2.2 rfl
     { free := 10, reserved := 0 } (by decide)⟩

/-- C10: Module.transfer is atomic: every error return leaves the whole
storage (BalancesMap and TotalIssuance) exactly as it was before the call,
and every Ok return has committed BOTH sides, writing the debited sender
record and then the credited destination record, so a state with only one
side updated is never observable after a completed call. -/
theorem transfer_atomicity (st : Storage) (sender dest amount : Nat) :
    ((Module.transfer st sender dest amount).2 ≠ none →
      (Module.transfer st sender dest amount).1 = st)
    ∧ ((Module.transfer st sender dest amount).2 = none →
      ∃ s0 dab, mapGet st.balances sender = some s0
        ∧ transferDestResult st.balances dest amount = Except.ok dab
        ∧ (Module.transfer st sender dest amount).1
            = { st with
                  balances := mapSet
                    (mapSet st.balances sender (AccountBalance.transfer s0 amount).1)
                    dest dab }
        ∧ mapGet (Module.transfer st sender dest amount).1.balances dest = some dab) := by
  cases hg : mapGet st.balances sender with
  | none =>
      have key : Module.transfer st sender dest amount
          = (st, some (Error.toDispatchError Error.DoesNotExist)) := by
        simp [Module.transfer, hg]
      rw [key]
      simp
  | some s0 =>
      cases hc : AccountBalance.can_transfer s0 amount with
      | some e =>
          have key : Module.transfer st sender dest amount = (st, some e) := by
            simp [Module.transfer, hg, hc]
          rw [key]
          simp
      | none =>
          cases hd : transferDestResult st.balances dest amount with
          | error e =>
              have key : Module.transfer st sender dest amount = (st, some e) := by
                simp [Module.transfer, hg, hc, hd]
              rw [key]
              simp
          | ok dab =>
              have key : Module.transfer st sender dest amount
                  = ({ st with
                        balances := mapSet
                          (mapSet st.balances sender (AccountBalance.transfer s0 amount).1)
                          dest dab }, none) := by
                simp [Module.transfer, hg, hc, hd]
              rw [key]
              exact ⟨by simp, fun _ => ⟨s0, dab, rfl, rfl, rfl, mapGet_mapSet_self _ _ _⟩⟩

/-- Witness for transfer_atomicity at concrete inputs: a transfer from the
missing sender 1 in empty storage errors and leaves storage unchanged, and
after minting 100 to account 1 a transfer of 20 to the fresh account 2
returns Ok with both records committed. -/
theorem transfer_atomicity_witness :
    (Module.transfer emptyStorage 1 2 10).1 = emptyStorage
    ∧ (∃ s0 dab,
        mapGet (run [(42, RuntimeCall.Currency (CurrencyCall.Mint 1 100))]).balances 1 = some s0
        ∧ transferDestResult
            (run [(42, RuntimeCall.Currency (CurrencyCall.Mint 1 100))]).balances 2 20
            = Except.ok dab
        ∧ (Module.transfer (run [(42, RuntimeCall.Currency (CurrencyCall.Mint 1 100))]) 1 2 20).1
            = { run [(42, RuntimeCall.Currency (CurrencyCall.Mint 1 100))] with
                  balances := mapSet
                    (mapSet (run [(42, RuntimeCall.Currency (CurrencyCall.Mint 1 100))]).balances 1
                      (AccountBalance.transfer s0 20).1)
                    2 dab }
        ∧ mapGet (Module.transfer
              (run [(42, RuntimeCall.Currency (CurrencyCall.Mint 1 100))]) 1 2 20).1.balances 2
            = some dab) :=
  ⟨(transfer_atomicity emptyStorage 1 2 10).1 (by decide),
   (transfer_atomicity (run [(42, RuntimeCall.Currency (CurrencyCall.Mint 1 100))]) 1 2 20).2
     (by decide)⟩

/-- C6: for an existing account a with free balance f, and any amount amt such
that the sender-side check (f - amt defined and 0 or at least MinimumBalance)
and the receive-side check (f + amt defined and at least MinimumBalance) both
pass, dispatching Transfer to a with sender a returns Ok and leaves the free
balance of a at f + amt: the destination-side write overwrites the
sender-side debit, increasing the balances sum by amt while TotalIssuance is
unchanged. -/
theorem self_transfer_credits_amount (st : Storage) (a f amt r : Nat)
    (hacct : mapGet st.balances a = some { free := f, reserved := r })
    (hsub : amt ≤ f) (hfloor : f - amt = 0 ∨ MinimumBalance ≤ f - amt)
    (hadd : f + amt ≤ UMAX) (hmin : MinimumBalance ≤ f + amt) :
    (RuntimeCall.dispatch (RuntimeCall.Currency (CurrencyCall.Transfer a amt)) a st).2 = none
    ∧ mapGet (RuntimeCall.dispatch (RuntimeCall.Currency (CurrencyCall.Transfer a amt)) a
        st).1.balances a = some { free := f + amt, reserved := r }
    ∧ sumBal (RuntimeCall.dispatch (RuntimeCall.Currency (CurrencyCall.Transfer a amt)) a
        st).1.balances = sumBal st.balances + amt
    ∧ (RuntimeCall.dispatch (RuntimeCall.Currency (CurrencyCall.Transfer a amt)) a
        st).1.totalIssuance = st.totalIssuance := by
  have hguard : MinimumBalance ≤ f - amt ∨ f - amt = 0 := hfloor.symm
  have hsub' : checked_sub f amt = some (f - amt) := by simp [checked_sub, hsub]
  have hadd' : checked_add f amt = some (f + amt) := by simp [checked_add, hadd]
  have hct : AccountBalance.can_transfer { free := f, reserved := r } amt = none := by
    simp [AccountBalance.can_transfer, hsub', hguard]
  have htr : AccountBalance.transfer { free := f, reserved := r } amt
      = ({ free := f - amt, reserved := r }, none) := by
    simp [AccountBalance.transfer, hsub', hguard]
  have hcr : AccountBalance.can_receive { free := f, reserved := r } amt = none := by
    simp [AccountBalance.can_receive, hadd', hmin]
  have hrc : AccountBalance.receive { free := f, reserved := r } amt
      = ({ free := f + amt, reserved := r }, none) := by
    simp [AccountBalance.receive, hadd', Nat.not_lt.mpr hmin]
  have htd : transferDestResult st.balances a amt
      = Except.ok { free := f + amt, reserved := r } := by
    simp [transferDestResult, hacct, hcr, hrc]
  have key : RuntimeCall.dispatch (RuntimeCall.Currency (CurrencyCall.Transfer a amt)) a st
      = ({ st with
            balances := mapSet (mapSet st.balances a { free := f - amt, reserved := r }) a
              { free := f + amt, reserved := r } }, none) := by
    simp [RuntimeCall.dispatch, CurrencyCall.dispatch, Module.transfer, hacct, hct, htd, htr]
  rw [key]
  refine ⟨rfl, mapGet_mapSet_self _ _ _, ?_, rfl⟩
  have hg1 : mapGet (mapSet st.balances a { free := f - amt, reserved := r }) a
      = some { free := f - amt, reserved := r } := mapGet_mapSet_self _ _ _
  have e1 : sumBal (mapSet st.balances a { free := f - amt, reserved := r }) + (f + r)
      = sumBal st.balances + ((f - amt) + r) :=
    sumBal_mapSet st.balances a { free := f - amt, reserved := r }
      { free := f, reserved := r } hacct
  have e2 : sumBal (mapSet (mapSet st.balances a { free := f - amt, reserved := r }) a
        { free := f + amt, reserved := r }) + ((f - amt) + r)
      = sumBal (mapSet st.balances a { free := f - amt, reserved := r }) + ((f + amt) + r) :=
    sumBal_mapSet _ a { free := f + amt, reserved := r } { free := f - amt, reserved := r } hg1
  show sumBal (mapSet (mapSet st.balances a { free := f - amt, reserved := r }) a
      { free := f + amt, reserved := r }) = sumBal st.balances + amt
  omega

/-- Witness for self_transfer_credits_amount: after minting 100 to account 1,
a self-transfer of 20 by account 1 returns Ok and leaves account 1 at free
120, with the balances sum up by 20 and TotalIssuance unchanged. -/
theorem self_transfer_credits_amount_witness :
    (RuntimeCall.dispatch (RuntimeCall.Currency (CurrencyCall.Transfer 1 20)) 1
        (run [(42, RuntimeCall.Currency (CurrencyCall.Mint 1 100))])).2 = none
    ∧ mapGet (RuntimeCall.dispatch (RuntimeCall.Currency (CurrencyCall.Transfer 1 20)) 1
        (run [(42, RuntimeCall.Currency (CurrencyCall.Mint 1 100))])).1.balances 1
        = some { free := 100 + 20, reserved := 0 }
    ∧ sumBal (RuntimeCall.dispatch (RuntimeCall.Currency (CurrencyCall.Transfer 1 20)) 1
        (run [(42, RuntimeCall.Currency (CurrencyCall.Mint 1 100))])).1.balances
        = sumBal (run [(42, RuntimeCall.Currency (CurrencyCall.Mint 1 100))]).balances + 20
    ∧ (RuntimeCall.dispatch (RuntimeCall.Currency (CurrencyCall.Transfer 1 20)) 1
        (run [(42, RuntimeCall.Currency (CurrencyCall.Mint 1 100))])).1.totalIssuance
        = (run [(42, RuntimeCall.Currency (CurrencyCall.Mint 1 100))]).totalIssuance :=
  self_transfer_credits_amount (run [(42, RuntimeCall.Currency (CurrencyCall.Mint 1 100))])
    1 100 20 0 (by decide) (by decide) (by decide) (by decide) (by decide)
